import Mathlib

/-!
Verification development for src/farm_optimizer.py.

The Python module is embedded shallowly:
* Python floats become exact rationals (ℚ); every decimal literal of the
  source (0.8, 3.50, 0.7, ...) is exact as a rational, so the arithmetic
  structure of the code is preserved.
* Python exceptions (ZeroDivisionError from `/`, AttributeError from reading
  an attribute that was never set, NameError from calling the undefined
  `calculate_monthly_revenue`, TypeError from `tuple + float`) become
  `Except String` results.
* Python dicts iterated with `.values()` / `.items()` become lists in
  insertion order; dict values keyed by `Season` become a total four-field
  table (every literal in the source populates all four seasons).
* The catalog of projects and upgrades is a constructor argument of the
  simulation (`optimize_with_infrastructure` takes them as parameters), as
  §2/§6 of the spec describe the catalog: injected data consumed by the core.
* `Resources.has_automation_skills` is a Python bool, i.e. an int; it is
  modelled as ℚ with truthiness `≠ 0` because `setattr` in the upgrade
  application can in principle overwrite it with a float.
* `Resources.market_connections` defaults to `None`; `None` and `[]` are
  indistinguishable to the code (only a truthiness test is ever applied),
  so both are modelled as `[]`.
-/

namespace FarmOpt

/-- PowerTimeOfUse enum of the source. -/
inductive PowerTimeOfUse
  | daytime_only
  | night_only
  | any_time
deriving DecidableEq, Repr

/-- Season enum of the source. -/
inductive Season
  | spring
  | summer
  | fall
  | winter
deriving DecidableEq, Repr

/-- Season.from_month: month number modulo 4 picks the season (0 = spring). -/
def Season.from_month (month : Nat) : Season :=
  match month % 4 with
  | 0 => Season.spring
  | 1 => Season.summer
  | 2 => Season.fall
  | _ => Season.winter

/-- A total table of one rational per season, modelling the
`Dict[Season, float]` fields (every dict literal in the source has all four
keys, and `InfrastructureUpgrade.__post_init__` fills missing tables). -/
structure SeasonTable where
  spring : ℚ
  summer : ℚ
  fall : ℚ
  winter : ℚ
deriving DecidableEq, Repr

/-- Dictionary lookup in a season table. -/
def SeasonTable.get (t : SeasonTable) : Season → ℚ
  | Season.spring => t.spring
  | Season.summer => t.summer
  | Season.fall => t.fall
  | Season.winter => t.winter

/-- PowerUsage dataclass. -/
structure PowerUsage where
  kwh_daily : ℚ
  time_of_use : PowerTimeOfUse
deriving DecidableEq, Repr

/-- MarketConnection dataclass. -/
structure MarketConnection where
  name : String
  product_types : List String
  sales_multiplier : ℚ
deriving DecidableEq, Repr

/-- Resources dataclass (see the file header for the two representation
choices: `has_automation_skills : ℚ` and `market_connections : List _`).
`investment_period_months` is an int in the source but participates only in
rational arithmetic. -/
structure Resources where
  solar_power_kw : ℚ
  battery_capacity_kwh : ℚ
  daytime_power_available_kwh : ℚ
  water_distance_miles : ℚ
  truck_mpg : ℚ
  initial_soil : ℚ
  available_money_monthly : ℚ
  investment_period_months : ℚ
  work_hours_daily : ℚ × ℚ
  outdoor_space_acres : ℚ
  indoor_space_sqft : ℚ
  has_automation_skills : ℚ
  climate_controlled_sqft : ℚ
  market_connections : List MarketConnection
  reinvestment_rate : ℚ
  target_savings : ℚ
deriving DecidableEq, Repr

/-- InfrastructureUpgrade dataclass; `resource_impacts` keeps the dict's
insertion order as an association list. -/
structure InfrastructureUpgrade where
  name : String
  cost : ℚ
  resource_impacts : List (String × ℚ)
  monthly_operating_cost : ℚ
  seasonal_benefits : SeasonTable
deriving DecidableEq, Repr

/-- Project dataclass.  The class body declares `startup_time_months` twice
(float, then int) and `monthly_revenue` twice (the second with default 0);
the later annotation wins for each, so `startup_time_months : ℤ` and
`monthly_revenue` is an ordinary field.  Note the dataclass has NO
`funded_so_far` field: the optimizer reads that attribute without it ever
being initialized, which is modelled in `ProjState` below. -/
structure Project where
  name : String
  setup_cost : ℚ
  monthly_cost : ℚ
  monthly_revenue : ℚ
  monthly_savings : ℚ
  space_required_sqft : ℚ
  is_indoor : Bool
  daily_hours : ℚ
  water_gallons_daily : ℚ
  power_usage : PowerUsage
  knowledge_required : ℤ
  sustainability_score : ℤ
  synergy_projects : List String
  scalability : ℤ
  automation_potential : ℤ
  product_type : String
  base_sales_probability : ℚ
  seasonal_multipliers : SeasonTable
  climate_controlled_benefit : ℚ
  startup_time_months : ℤ
  current_stage : String
deriving DecidableEq, Repr

/-- Runtime state of one catalog entry inside the optimizer: the project
object plus its `funded_so_far` attribute, which is `none` until some code
assigns it.  Reading it while `none` is Python's AttributeError. -/
structure ProjState where
  proj : Project
  funded_so_far : Option ℚ
deriving DecidableEq, Repr

/-- One `monthly_report` dict of the loop. -/
structure MonthlyReport where
  month : ℕ
  actions : List String
  profit : ℚ
  savings : ℚ
deriving DecidableEq, Repr

/-- The `financial_projection` dict of parallel series. -/
structure FinancialProjection where
  monthly_details : List MonthlyReport
  monthly_profits : List ℚ
  accumulated_savings : List ℚ
  infrastructure_investments : List ℚ
  well_savings : List ℚ
deriving DecidableEq, Repr

/-- The mutable state carried across iterations of the monthly loop of
`optimize_with_infrastructure`. -/
structure LoopState where
  resources : Resources
  catalog : List ProjState
  current_projects : List Project
  planned_upgrades : List InfrastructureUpgrade
  available_budget : ℚ
  accumulated_savings : ℚ
  fp_monthly_details : List MonthlyReport
  fp_monthly_profits : List ℚ
  fp_accumulated_savings : List ℚ
  fp_infrastructure_investments : List ℚ
  fp_well_savings : List ℚ
deriving DecidableEq, Repr

/-- Python `a / b`: raises ZeroDivisionError when the divisor is zero. -/
def pydiv (a b : ℚ) : Except String ℚ :=
  if b = 0 then Except.error "ZeroDivisionError" else Except.ok (a / b)

/-- Python `max` over a nonempty list of numbers (returns 0 for [], a case
the source never reaches because it is guarded by nonemptiness tests). -/
def listMaxQ : List ℚ → ℚ
  | [] => 0
  | x :: xs => xs.foldl max x

/-- Python `max(iterable, key=...)`: scans left to right keeping the first
element whose key is maximal (a later element replaces the current one only
when its key is strictly greater). -/
def pyMaxFold {α : Type} (key : α → ℚ) (x : α) (xs : List α) : α :=
  xs.foldl (fun acc y => if key acc < key y then y else acc) x

/-- Daytime-only power total of `check_power_feasibility`. -/
def pfDaytimeTotal (projects : List Project) : ℚ :=
  ((projects.filter (fun p =>
      decide (p.power_usage.time_of_use = PowerTimeOfUse.daytime_only))).map
    (fun p => p.power_usage.kwh_daily)).sum

/-- Night + any-time (battery-backed) power total of
`check_power_feasibility`. -/
def pfBatteryTotal (projects : List Project) : ℚ :=
  ((projects.filter (fun p =>
      decide (p.power_usage.time_of_use = PowerTimeOfUse.night_only ∨
        p.power_usage.time_of_use = PowerTimeOfUse.any_time))).map
    (fun p => p.power_usage.kwh_daily)).sum

/-- FarmOptimizer.check_power_feasibility. -/
def check_power_feasibility (res : Resources) (projects : List Project) : Bool :=
  decide (pfDaytimeTotal projects ≤ res.daytime_power_available_kwh) &&
    decide (pfBatteryTotal projects ≤ res.battery_capacity_kwh * 0.8)

/-- FarmOptimizer.calculate_water_costs. -/
def calculate_water_costs (res : Resources) (gallons_daily : ℚ) : Except String ℚ :=
  let trips_per_month := gallons_daily * 30 / 100
  let miles_per_month := trips_per_month * res.water_distance_miles * 2
  match pydiv 3.50 res.truck_mpg with
  | Except.error e => Except.error e
  | Except.ok gas_cost_per_mile => Except.ok (miles_per_month * gas_cost_per_mile)

/-- FarmOptimizer.calculate_market_adjusted_revenue. -/
def calculate_market_adjusted_revenue (res : Resources) (project : Project)
    (season : Season) : ℚ :=
  let base_revenue := project.monthly_revenue
  let revenue1 := base_revenue * project.seasonal_multipliers.get season
  let revenue2 :=
    if project.is_indoor = true ∧ project.space_required_sqft ≤ res.climate_controlled_sqft
    then revenue1 * project.climate_controlled_benefit
    else revenue1
  let revenue3 :=
    if res.market_connections ≠ [] then
      let relevant_connections := res.market_connections.filter
        (fun conn => conn.product_types.contains project.product_type)
      if relevant_connections ≠ [] then
        revenue2 * listMaxQ (relevant_connections.map (fun conn => conn.sales_multiplier))
      else revenue2
    else revenue2
  revenue3 * project.base_sales_probability

/-- FarmOptimizer.calculate_infrastructure_roi.  The inner `if` mirrors the
source: benefit is accumulated per indoor project per month only when the
impact map has a "climate_controlled_sqft" key; the season is derived from
the month exactly as `Season.from_month` does. -/
def calculate_infrastructure_roi (res : Resources) (upgrade : InfrastructureUpgrade)
    (current_projects : List Project) (projection_months : ℕ) : ℚ :=
  let total_cost := upgrade.cost + upgrade.monthly_operating_cost * (projection_months : ℚ)
  let total_benefit :=
    ((List.range projection_months).map (fun month =>
      let season := Season.from_month month
      (((current_projects.filter (fun p => p.is_indoor)).map (fun project =>
        let current_revenue := calculate_market_adjusted_revenue res project season
        if (upgrade.resource_impacts.map Prod.fst).contains "climate_controlled_sqft" then
          current_revenue * upgrade.seasonal_benefits.get season - current_revenue
        else 0)).sum))).sum
  if 0 < total_cost then (total_benefit - total_cost) / total_cost else 0

/-- FarmOptimizer.calculate_project_score.  `simple_roi` divides by the
project's setup cost with NO zero guard, exactly as the source does. -/
def calculate_project_score (res : Resources) (project : Project)
    (selected_projects : List Project) : Except String ℚ :=
  match calculate_water_costs res project.water_gallons_daily with
  | Except.error e => Except.error e
  | Except.ok monthly_water_cost =>
    let monthly_profit := project.monthly_revenue + project.monthly_savings -
      project.monthly_cost - monthly_water_cost
    match pydiv monthly_profit project.setup_cost with
    | Except.error e => Except.error e
    | Except.ok simple_roi =>
      let synergy_bonus : ℚ := ((selected_projects.filter (fun p =>
        p.synergy_projects.contains project.name ||
          project.synergy_projects.contains p.name)).length : ℚ)
      let automation_bonus : ℚ :=
        if res.has_automation_skills ≠ 0 then (project.automation_potential : ℚ) / 10 else 0
      let scalability_bonus : ℚ := (project.scalability : ℚ) / 10
      Except.ok (simple_roi * 0.4 + synergy_bonus * 0.2 + automation_bonus * 0.2 +
        scalability_bonus * 0.2)

/-- Project.update_stage. -/
def Project.update_stage (p : Project) : Project :=
  if p.current_stage = "setup" ∧ p.startup_time_months = 0 then
    { p with current_stage := "production" }
  else if p.current_stage = "setup" then
    { p with startup_time_months := p.startup_time_months - 1 }
  else p

/-- The per-active-project block at the top of the loop body: advance the
stage, then set `monthly_revenue` from `calculate_monthly_revenue` — a
function that does not exist anywhere in the module, so reaching the
"production" branch raises NameError. -/
def advanceProject (p : Project) : Except String Project :=
  let p1 := p.update_stage
  if p1.current_stage = "production" then
    Except.error "NameError: name calculate_monthly_revenue is not defined"
  else Except.ok { p1 with monthly_revenue := 0 }

/-- Sequential effectful map (the loop's `for project in current_projects`). -/
def mapExcept {α β : Type} (f : α → Except String β) : List α → Except String (List β)
  | [] => Except.ok []
  | x :: xs =>
    match f x with
    | Except.error e => Except.error e
    | Except.ok y =>
      match mapExcept f xs with
      | Except.error e => Except.error e
      | Except.ok ys => Except.ok (y :: ys)

/-- The funding attempt for one catalog project (the body of the
`for project in self.projects.values()` loop).  Reading
`project.funded_so_far` when the attribute was never assigned raises
AttributeError. -/
def fundProject (current_projects : List Project) (budget : ℚ) (ps : ProjState) :
    Except String (ProjState × ℚ × List String) :=
  if ps.proj ∉ current_projects ∧ ps.proj.current_stage = "setup" then
    match ps.funded_so_far with
    | none => Except.error "AttributeError: Project object has no attribute funded_so_far"
    | some funded =>
      let required_funds := ps.proj.setup_cost - funded
      if required_funds ≤ budget then
        let funded1 := funded + required_funds
        let budget1 := budget - required_funds
        let proj1 :=
          if ps.proj.setup_cost ≤ funded1 then { ps.proj with current_stage := "growth" }
          else ps.proj
        Except.ok (⟨proj1, some funded1⟩, budget1, ["Funded " ++ ps.proj.name])
      else Except.ok (ps, budget, [])
  else Except.ok (ps, budget, [])

/-- The whole funding pass over the catalog, threading the budget and
collecting the "Funded X" actions in order. -/
def fundingPass (current_projects : List Project) :
    List ProjState → ℚ → Except String (List ProjState × ℚ × List String)
  | [], budget => Except.ok ([], budget, [])
  | ps :: rest, budget =>
    match fundProject current_projects budget ps with
    | Except.error e => Except.error e
    | Except.ok (ps1, budget1, acts) =>
      match fundingPass current_projects rest budget1 with
      | Except.error e => Except.error e
      | Except.ok (rest1, budget2, acts1) => Except.ok (ps1 :: rest1, budget2, acts ++ acts1)

/-- `sum(self.calculate_water_costs(p.water_gallons_daily) for p in ...)`. -/
def sumWaterCosts (res : Resources) : List Project → Except String ℚ
  | [] => Except.ok 0
  | p :: rest =>
    match calculate_water_costs res p.water_gallons_daily with
    | Except.error e => Except.error e
    | Except.ok c =>
      match sumWaterCosts res rest with
      | Except.error e => Except.error e
      | Except.ok s => Except.ok (c + s)

/-- One `setattr(self.resources, resource, current_value + impact)` guarded
by `hasattr`: a key that names no Resources attribute is silently dropped;
the two non-numeric attributes raise TypeError when added to a float. -/
def applyImpact (res : Resources) (field : String) (impact : ℚ) : Except String Resources :=
  if field = "solar_power_kw" then
    Except.ok { res with solar_power_kw := res.solar_power_kw + impact }
  else if field = "battery_capacity_kwh" then
    Except.ok { res with battery_capacity_kwh := res.battery_capacity_kwh + impact }
  else if field = "daytime_power_available_kwh" then
    Except.ok { res with daytime_power_available_kwh := res.daytime_power_available_kwh + impact }
  else if field = "water_distance_miles" then
    Except.ok { res with water_distance_miles := res.water_distance_miles + impact }
  else if field = "truck_mpg" then
    Except.ok { res with truck_mpg := res.truck_mpg + impact }
  else if field = "initial_soil" then
    Except.ok { res with initial_soil := res.initial_soil + impact }
  else if field = "available_money_monthly" then
    Except.ok { res with available_money_monthly := res.available_money_monthly + impact }
  else if field = "investment_period_months" then
    Except.ok { res with investment_period_months := res.investment_period_months + impact }
  else if field = "work_hours_daily" then
    Except.error "TypeError: unsupported operand types for +"
  else if field = "outdoor_space_acres" then
    Except.ok { res with outdoor_space_acres := res.outdoor_space_acres + impact }
  else if field = "indoor_space_sqft" then
    Except.ok { res with indoor_space_sqft := res.indoor_space_sqft + impact }
  else if field = "has_automation_skills" then
    Except.ok { res with has_automation_skills := res.has_automation_skills + impact }
  else if field = "climate_controlled_sqft" then
    Except.ok { res with climate_controlled_sqft := res.climate_controlled_sqft + impact }
  else if field = "market_connections" then
    Except.error "TypeError: unsupported operand types for +"
  else if field = "reinvestment_rate" then
    Except.ok { res with reinvestment_rate := res.reinvestment_rate + impact }
  else if field = "target_savings" then
    Except.ok { res with target_savings := res.target_savings + impact }
  else Except.ok res

/-- `for resource, impact in best_upgrade.resource_impacts.items(): ...`. -/
def applyImpacts (res : Resources) : List (String × ℚ) → Except String Resources
  | [] => Except.ok res
  | (field, impact) :: rest =>
    match applyImpact res field impact with
    | Except.error e => Except.error e
    | Except.ok res1 => applyImpacts res1 rest

/-- The tail of one loop iteration shared by the upgrade / no-upgrade
branches: split the remaining pool into durable savings and next period's
budget (using the possibly-mutated `reinvestment_rate`), assemble the
monthly report and append all five financial-projection series. -/
def finishMonth (st : LoopState) (month : ℕ) (catalog1 : List ProjState)
    (current1 : List Project) (planned1 : List InfrastructureUpgrade) (res1 : Resources)
    (monthly_profit pool : ℚ) (actions : List String) : LoopState :=
  let savings_amount := pool * (1 - res1.reinvestment_rate)
  let accumulated1 := st.accumulated_savings + savings_amount
  let budget1 := pool * res1.reinvestment_rate
  let report : MonthlyReport :=
    { month := month + 1, actions := actions, profit := monthly_profit, savings := accumulated1 }
  { resources := res1
    catalog := catalog1
    current_projects := current1
    planned_upgrades := planned1
    available_budget := budget1
    accumulated_savings := accumulated1
    fp_monthly_details := st.fp_monthly_details ++ [report]
    fp_monthly_profits := st.fp_monthly_profits ++ [monthly_profit]
    fp_accumulated_savings := st.fp_accumulated_savings ++ [accumulated1]
    fp_infrastructure_investments :=
      st.fp_infrastructure_investments ++ [(planned1.map (fun u => u.cost)).sum]
    fp_well_savings := st.fp_well_savings ++ [accumulated1] }

/-- One iteration of the monthly loop of
FarmOptimizer.optimize_with_infrastructure, in the source's order:
stage updates over the active list, the funding pass over the catalog,
revenue / recurring cost / water cost totals, the reinvestable pool,
selection of the affordable upgrade with the best projected ROI (Python
`max` keeps the first maximal element), mutation of Resources through the
upgrade's impact map, then the savings split and the trace appends. -/
def stepMonth (upgradesCat : List InfrastructureUpgrade) (projection_months : ℕ)
    (st : LoopState) (month : ℕ) : Except String LoopState :=
  let season := Season.from_month month
  match mapExcept advanceProject st.current_projects with
  | Except.error e => Except.error e
  | Except.ok current1 =>
    match fundingPass current1 st.catalog st.available_budget with
    | Except.error e => Except.error e
    | Except.ok (catalog1, budget1, fundActions) =>
      let monthly_revenue :=
        (current1.map (fun p => calculate_market_adjusted_revenue st.resources p season)).sum
      let monthly_costs := (current1.map (fun p => p.monthly_cost)).sum
      match sumWaterCosts st.resources current1 with
      | Except.error e => Except.error e
      | Except.ok water_costs =>
        let monthly_profit := monthly_revenue - monthly_costs - water_costs
        let reinvestment_amount := monthly_profit + budget1
        let affordable := upgradesCat.filter (fun u =>
          decide (u ∉ st.planned_upgrades) && decide (u.cost ≤ reinvestment_amount))
        match affordable with
        | [] =>
          Except.ok (finishMonth st month catalog1 current1 st.planned_upgrades st.resources
            monthly_profit reinvestment_amount fundActions)
        | u0 :: us =>
          let best := pyMaxFold (fun u =>
            calculate_infrastructure_roi st.resources u current1 (projection_months - month)) u0 us
          match applyImpacts st.resources best.resource_impacts with
          | Except.error e => Except.error e
          | Except.ok res1 =>
            Except.ok (finishMonth st month catalog1 current1
              (st.planned_upgrades ++ [best]) res1 monthly_profit
              (reinvestment_amount - best.cost)
              (fundActions ++ ["Implemented upgrade: " ++ best.name]))

/-- `for month in range(projection_months)` driven over an explicit list of
month indices. -/
def runMonths (upgradesCat : List InfrastructureUpgrade) (projection_months : ℕ)
    (st : LoopState) : List ℕ → Except String LoopState
  | [] => Except.ok st
  | mo :: rest =>
    match stepMonth upgradesCat projection_months st mo with
    | Except.error e => Except.error e
    | Except.ok st1 => runMonths upgradesCat projection_months st1 rest

/-- Initial loop state: empty active list, empty applied-upgrade list, the
budget `available_money_monthly * investment_period_months`, zero savings,
empty trace, and every catalog project with its `funded_so_far` attribute
unset.  (`available_hours` and the two space locals of the source are dead:
nothing in the loop body reads them, so they are omitted.) -/
def initState (res : Resources) (projectsCat : List Project) : LoopState :=
  { resources := res
    catalog := projectsCat.map (fun p => ⟨p, none⟩)
    current_projects := []
    planned_upgrades := []
    available_budget := res.available_money_monthly * res.investment_period_months
    accumulated_savings := 0
    fp_monthly_details := []
    fp_monthly_profits := []
    fp_accumulated_savings := []
    fp_infrastructure_investments := []
    fp_well_savings := [] }

/-- FarmOptimizer.optimize_with_infrastructure: run the monthly loop and
return (current_projects, planned_upgrades, financial_projection).  The
project and upgrade catalogs are the injected data the constructor stores
in `self.projects` / `self.infrastructure_upgrades` (the unused
`aggressive_reinvestment` parameter is dropped). -/
def optimize_with_infrastructure (res : Resources) (projectsCat : List Project)
    (upgradesCat : List InfrastructureUpgrade) (projection_months : ℕ) :
    Except String (List Project × List InfrastructureUpgrade × FinancialProjection) :=
  match runMonths upgradesCat projection_months (initState res projectsCat)
      (List.range projection_months) with
  | Except.error e => Except.error e
  | Except.ok st =>
    Except.ok (st.current_projects, st.planned_upgrades,
      { monthly_details := st.fp_monthly_details
        monthly_profits := st.fp_monthly_profits
        accumulated_savings := st.fp_accumulated_savings
        infrastructure_investments := st.fp_infrastructure_investments
        well_savings := st.fp_well_savings })

/-- Spec formula for the Revenue Model (§4.3 / claim C4): base monthly
revenue times the season multiplier, times the climate bonus when eligible,
times the best relevant market multiplier when one exists, times the base
sale probability. -/
def revenueSpec (res : Resources) (project : Project) (season : Season) : ℚ :=
  let climate_factor :=
    if project.is_indoor = true ∧ project.space_required_sqft ≤ res.climate_controlled_sqft
    then project.climate_controlled_benefit else 1
  let relevant := res.market_connections.filter
    (fun conn => conn.product_types.contains project.product_type)
  let market_factor :=
    if relevant ≠ [] then listMaxQ (relevant.map (fun conn => conn.sales_multiplier)) else 1
  project.monthly_revenue * project.seasonal_multipliers.get season * climate_factor *
    market_factor * project.base_sales_probability

/-- Spec formula (§4.5 / claim C7): total cost of an upgrade over a horizon,
purchase cost plus operating cost times the horizon. -/
def specTotalCost (upgrade : InfrastructureUpgrade) (projection_months : ℕ) : ℚ :=
  upgrade.cost + upgrade.monthly_operating_cost * (projection_months : ℚ)

/-- Spec formula (§4.5 / claim C7): projected benefit, accruing only from
indoor active projects and only when the upgrade's impact map affects
climate-controlled space. -/
def specBenefit (res : Resources) (upgrade : InfrastructureUpgrade)
    (current_projects : List Project) (projection_months : ℕ) : ℚ :=
  if (upgrade.resource_impacts.map Prod.fst).contains "climate_controlled_sqft" then
    ((List.range projection_months).map (fun month =>
      let season := Season.from_month month
      (((current_projects.filter (fun p => p.is_indoor)).map (fun project =>
        let current_revenue := calculate_market_adjusted_revenue res project season
        current_revenue * upgrade.seasonal_benefits.get season - current_revenue)).sum))).sum
  else 0

/-- Erase the two power-budget fields of a Resources snapshot (claim C10:
the loop's outputs may not depend on them). -/
def scrub (r : Resources) : Resources :=
  { r with battery_capacity_kwh := 0, daytime_power_available_kwh := 0 }

/-- Erase the power-budget fields inside a loop state. -/
def scrubState (st : LoopState) : LoopState :=
  { st with resources := scrub st.resources }

/-- Season table with all four multipliers equal to 1 (what
`InfrastructureUpgrade.__post_init__` builds when none is given). -/
def allSeasonsOne : SeasonTable := ⟨1, 1, 1, 1⟩

/-- The "well" entry of FarmOptimizer._initialize_upgrades: note its impact
map key "water_cost", which names no Resources attribute. -/
def wellUpgrade : InfrastructureUpgrade :=
  { name := "Water Well Installation"
    cost := 25000
    resource_impacts := [("water_cost", -1.0)]
    monthly_operating_cost := 50
    seasonal_benefits := allSeasonsOne }

/-- A generic project used as the base of the concrete test inputs below. -/
def baseProject : Project :=
  { name := "Air Cleaning Plants"
    setup_cost := 200
    monthly_cost := 30
    monthly_revenue := 100
    monthly_savings := 0
    space_required_sqft := 50
    is_indoor := false
    daily_hours := 1
    water_gallons_daily := 2
    power_usage := { kwh_daily := 1.2, time_of_use := PowerTimeOfUse.any_time }
    knowledge_required := 3
    sustainability_score := 9
    synergy_projects := []
    scalability := 6
    automation_potential := 7
    product_type := "plants"
    base_sales_probability := 1
    seasonal_multipliers := allSeasonsOne
    climate_controlled_benefit := 1.2
    startup_time_months := 3
    current_stage := "setup" }

/-- Resources mirroring the example-driver snapshot at the bottom of the
source (water distance changed to the 20 miles of the §8 water-cost
scenario; defaults: climate 0, no market connections, reinvestment 0.7,
target 25000). -/
def baseResources : Resources :=
  { solar_power_kw := 10
    battery_capacity_kwh := 28
    daytime_power_available_kwh := 35
    water_distance_miles := 20
    truck_mpg := 15
    initial_soil := 0
    available_money_monthly := 500
    investment_period_months := 12
    work_hours_daily := (8, 10)
    outdoor_space_acres := 0.5
    indoor_space_sqft := 200
    has_automation_skills := 1
    climate_controlled_sqft := 0
    market_connections := []
    reinvestment_rate := 0.7
    target_savings := 25000 }

/-- C1 scenario project: startup_time_months = 0, nonzero base revenue,
season multipliers 1, sale probability 0.5, in catalog stage "setup". -/
def zeroStartupProject : Project :=
  { baseProject with startup_time_months := 0, base_sales_probability := 0.5 }

/-- C4 scenario market connection: serves "plants" with multiplier 1.5. -/
def plantsConnection : MarketConnection :=
  { name := "farmers market", product_types := ["plants"], sales_multiplier := 1.5 }

/-- C4 scenario resources: the plants connection, no climate space. -/
def marketResources : Resources :=
  { baseResources with market_connections := [plantsConnection] }

/-- C4 scenario project: product "plants", base revenue 100, season
multiplier 1.0, sale probability 0.5, no climate bonus (outdoor). -/
def plantsProject : Project :=
  { baseProject with base_sales_probability := 0.5 }

/-- C6 scenario project: zero setup cost. -/
def zeroCostProject : Project := { baseProject with setup_cost := 0 }

/-- C7 counterexample upgrade: negative purchase cost, so the total cost is
nonzero yet not positive. -/
def negCostUpgrade : InfrastructureUpgrade :=
  { name := "negative cost upgrade"
    cost := -100
    resource_impacts := []
    monthly_operating_cost := 0
    seasonal_benefits := allSeasonsOne }

/-- C8 witness upgrade: cheap enough to be bought in month 0. -/
def cheapUpgrade : InfrastructureUpgrade :=
  { name := "Hoop House"
    cost := 100
    resource_impacts := [("climate_controlled_sqft", 500)]
    monthly_operating_cost := 0
    seasonal_benefits := allSeasonsOne }

/-- C9 resources: daytime budget 9, large battery. -/
def tightPowerResources : Resources :=
  { baseResources with daytime_power_available_kwh := 9, battery_capacity_kwh := 100 }

/-- C9 project drawing 10 kWh daytime-only. -/
def daytimeHungryProject : Project :=
  { baseProject with
    name := "daytime hungry"
    power_usage := { kwh_daily := 10, time_of_use := PowerTimeOfUse.daytime_only } }

/-- C9 counterexample project: a NEGATIVE daytime-only power draw, on which
the monotonicity of the power totals fails. -/
def negPowerProject : Project :=
  { baseProject with
    name := "negative draw"
    power_usage := { kwh_daily := -5, time_of_use := PowerTimeOfUse.daytime_only } }

/-- C9 witness project: a nonnegative any-time draw. -/
def smallPowerProject : Project :=
  { baseProject with
    name := "small draw"
    power_usage := { kwh_daily := 2, time_of_use := PowerTimeOfUse.any_time } }

lemma sum_map_zero {α : Type} (l : List α) : (l.map (fun _ => (0 : ℚ))).sum = 0 := by
  induction l <;> simp_all

lemma applyImpact_climate (r : Resources) (v : ℚ) :
    applyImpact r "climate_controlled_sqft" v =
      Except.ok { r with climate_controlled_sqft := r.climate_controlled_sqft + v } := by
  simp [applyImpact]

lemma pfDaytimeTotal_append (L : List Project) (p : Project) :
    pfDaytimeTotal (L ++ [p]) = pfDaytimeTotal L +
      (if p.power_usage.time_of_use = PowerTimeOfUse.daytime_only
        then p.power_usage.kwh_daily else 0) := by
  cases htou : p.power_usage.time_of_use <;>
    simp [pfDaytimeTotal, List.filter_append, List.filter, htou]

lemma pfBatteryTotal_append (L : List Project) (p : Project) :
    pfBatteryTotal (L ++ [p]) = pfBatteryTotal L +
      (if p.power_usage.time_of_use = PowerTimeOfUse.night_only ∨
          p.power_usage.time_of_use = PowerTimeOfUse.any_time
        then p.power_usage.kwh_daily else 0) := by
  cases htou : p.power_usage.time_of_use <;>
    simp [pfBatteryTotal, List.filter_append, List.filter, htou]

/-- Claim C4: for every project and season the Revenue Model returns base
monthly revenue times the season multiplier, times the climate bonus when
the project is indoor and fits the climate-controlled space, times the
maximum sales multiplier over connections serving the product type when any
exists, times the base sale probability; and the §8 scenario (a "plants"
connection with multiplier 1.5, base revenue 100, season multiplier 1.0,
sale probability 0.5, no climate bonus) yields exactly 75. -/
theorem c4_revenue_model_formula :
    (∀ (res : Resources) (p : Project) (s : Season),
      calculate_market_adjusted_revenue res p s = revenueSpec res p s) ∧
    calculate_market_adjusted_revenue marketResources plantsProject Season.spring = 75 := by
  constructor
  · intro res p s
    simp only [calculate_market_adjusted_revenue, revenueSpec]
    by_cases hmc : res.market_connections = []
    · simp only [hmc, List.filter_nil, ne_eq, not_true_eq_false, if_false]
      split_ifs <;> ring
    · simp only [ne_eq, hmc, not_false_eq_true, if_true]
      split_ifs <;> ring
  · norm_num [calculate_market_adjusted_revenue, marketResources, plantsProject, plantsConnection,
      baseProject, baseResources, listMaxQ, SeasonTable.get, allSeasonsOne, List.filter]

/-- Claim C5: the water cost model returns (g × 30) / 100 monthly round
trips times the round-trip distance (2 × one-way) times 3.50 divided by the
fuel economy (raising ZeroDivisionError when the fuel economy is 0); zero
gallons yield zero cost; and 10 gal/day at 20 miles one-way and 15 mpg cost
exactly 28. -/
theorem c5_water_cost_formula :
    (∀ (res : Resources) (g : ℚ),
      calculate_water_costs res g =
        if res.truck_mpg = 0 then Except.error "ZeroDivisionError"
        else Except.ok (g * 30 / 100 * (2 * res.water_distance_miles) * (3.50 / res.truck_mpg))) ∧
    (∀ res : Resources, calculate_water_costs res 0 =
        if res.truck_mpg = 0 then Except.error "ZeroDivisionError" else Except.ok 0) ∧
    calculate_water_costs baseResources 10 = Except.ok 28 := by
  refine ⟨?_, ?_, ?_⟩
  · intro res g
    simp only [calculate_water_costs, pydiv]
    split_ifs
    · rfl
    · exact congrArg Except.ok (by ring)
  · intro res
    simp only [calculate_water_costs, pydiv]
    split_ifs <;> simp
  · norm_num [calculate_water_costs, pydiv, baseResources]

/-- Claim C6 (code bug): `calculate_project_score` divides the monthly
profit by the setup cost with no guard, so every project with setup cost 0
raises ZeroDivisionError instead of returning the sentinel 0 the spec
requires. -/
theorem c6_zero_setup_cost_raises :
    ∀ (res : Resources) (selected : List Project) (p : Project), p.setup_cost = 0 →
      calculate_project_score res p selected = Except.error "ZeroDivisionError" := by
  intro res selected p hp
  by_cases hm : res.truck_mpg = 0 <;>
    simp [calculate_project_score, calculate_water_costs, pydiv, hm, hp]

/-- Witness for C6: the concrete zero-setup-cost project hits the division
by zero (the water-cost divisor 15 is nonzero, so the error is the ROI
division itself). -/
theorem c6_zero_setup_cost_raises_witness :
    calculate_project_score baseResources zeroCostProject [] =
      Except.error "ZeroDivisionError" :=
  c6_zero_setup_cost_raises baseResources [] zeroCostProject (by rfl)

/-- Claim C3 (code bug): the well upgrade's impact map key "water_cost"
names no Resources attribute, so `hasattr` fails and applying the well
leaves the Resources snapshot completely unchanged; in particular the
per-gallon water transport cost after the well is the same nonzero 28 the
§8 scenario computes before it, not 0. -/
theorem c3_well_impact_silently_dropped :
    (∀ res : Resources, applyImpacts res wellUpgrade.resource_impacts = Except.ok res) ∧
    (match applyImpacts baseResources wellUpgrade.resource_impacts with
      | Except.ok res1 => calculate_water_costs res1 10 = Except.ok 28 ∧ (28 : ℚ) ≠ 0
      | Except.error _ => False) := by
  refine ⟨fun res => rfl, ?_⟩
  have h : applyImpacts baseResources wellUpgrade.resource_impacts =
      Except.ok baseResources := rfl
  rw [h]
  refine ⟨?_, by norm_num⟩
  norm_num [calculate_water_costs, pydiv, baseResources]

/-- Witness for C3: applying the well to the example Resources returns them
unchanged. -/
theorem c3_well_impact_silently_dropped_witness :
    applyImpacts baseResources wellUpgrade.resource_impacts = Except.ok baseResources :=
  c3_well_impact_silently_dropped.1 baseResources

/-- Claim C7 (amended): the Infrastructure ROI Estimator returns the
quotient (benefit − cost) / cost only when the total cost is strictly
positive and returns 0 for every total cost ≤ 0 (not merely = 0), with
benefit accruing only from indoor active projects and only when the impact
map affects climate-controlled space. -/
theorem c7_roi_total_cost_guard :
    ∀ (res : Resources) (u : InfrastructureUpgrade) (ps : List Project) (m : ℕ),
      calculate_infrastructure_roi res u ps m =
        if 0 < specTotalCost u m then
          (specBenefit res u ps m - specTotalCost u m) / specTotalCost u m
        else 0 := by
  intro res u ps m
  simp only [calculate_infrastructure_roi, specTotalCost, specBenefit]
  by_cases hkey :
      ((u.resource_impacts.map Prod.fst).contains "climate_controlled_sqft") = true
  · rw [if_pos hkey]
    simp only [if_pos hkey]
  · rw [if_neg hkey]
    simp only [if_neg hkey, sum_map_zero]

/-- Counterexample for C7 as frozen: an upgrade of total cost −100 (nonzero)
gets ROI 0 from the code while the claimed quotient is −1. -/
theorem c7_negative_total_cost_counterexample :
    calculate_infrastructure_roi baseResources negCostUpgrade [] 1 = 0 ∧
    specTotalCost negCostUpgrade 1 = -100 ∧
    (specBenefit baseResources negCostUpgrade [] 1 - specTotalCost negCostUpgrade 1) /
        specTotalCost negCostUpgrade 1 = -1 ∧
    (0 : ℚ) ≠ -1 := by
  refine ⟨?_, ?_, ?_, by norm_num⟩ <;>
    norm_num [calculate_infrastructure_roi, specTotalCost, specBenefit, negCostUpgrade,
      allSeasonsOne, List.range, List.range.loop, List.filter, Season.from_month]

/-- Claim C9 (amended): the Feasibility Checker succeeds iff the
daytime-only total is within the daytime budget and the night+any-time
total is within 80% of battery capacity; and appending a project of
NONNEGATIVE daily draw can only grow both totals, so feasibility of the
extended list implies feasibility of the original. -/
theorem c9_feasibility_monotone_nonneg :
    (∀ (res : Resources) (ps : List Project),
      check_power_feasibility res ps = true ↔
        (pfDaytimeTotal ps ≤ res.daytime_power_available_kwh ∧
          pfBatteryTotal ps ≤ res.battery_capacity_kwh * 0.8)) ∧
    (∀ (res : Resources) (L : List Project) (p : Project),
      0 ≤ p.power_usage.kwh_daily →
      pfDaytimeTotal L ≤ pfDaytimeTotal (L ++ [p]) ∧
      pfBatteryTotal L ≤ pfBatteryTotal (L ++ [p]) ∧
      (check_power_feasibility res (L ++ [p]) = true →
        check_power_feasibility res L = true)) := by
  constructor
  · intro res ps
    simp [check_power_feasibility]
  · intro res L p hp
    have hd := pfDaytimeTotal_append L p
    have hb := pfBatteryTotal_append L p
    refine ⟨?_, ?_, ?_⟩
    · rw [hd]; split_ifs <;> linarith
    · rw [hb]; split_ifs <;> linarith
    · intro hfeas
      simp only [check_power_feasibility, Bool.and_eq_true, decide_eq_true_eq] at hfeas ⊢
      obtain ⟨h1, h2⟩ := hfeas
      rw [hd] at h1
      rw [hb] at h2
      constructor
      · split_ifs at h1 <;> linarith
      · split_ifs at h2 <;> linarith

/-- Witness for C9: appending the 2 kWh any-time project to the singleton
list grows neither total downward. -/
theorem c9_feasibility_monotone_nonneg_witness :
    pfDaytimeTotal [daytimeHungryProject] ≤
      pfDaytimeTotal ([daytimeHungryProject] ++ [smallPowerProject]) ∧
    pfBatteryTotal [daytimeHungryProject] ≤
      pfBatteryTotal ([daytimeHungryProject] ++ [smallPowerProject]) := by
  have h := c9_feasibility_monotone_nonneg.2 tightPowerResources [daytimeHungryProject]
    smallPowerProject (by norm_num [smallPowerProject, baseProject])
  exact ⟨h.1, h.2.1⟩

/-- Counterexample for C9 as frozen: appending the project with negative
daytime draw makes the infeasible singleton list feasible and strictly
DECREASES the daytime total, contradicting unrestricted monotonicity. -/
theorem c9_negative_draw_counterexample :
    check_power_feasibility tightPowerResources
      ([daytimeHungryProject] ++ [negPowerProject]) = true ∧
    check_power_feasibility tightPowerResources [daytimeHungryProject] = false ∧
    pfDaytimeTotal ([daytimeHungryProject] ++ [negPowerProject]) <
      pfDaytimeTotal [daytimeHungryProject] := by
  refine ⟨?_, ?_, ?_⟩ <;>
    simp [check_power_feasibility, pfDaytimeTotal, pfBatteryTotal, tightPowerResources,
      daytimeHungryProject, negPowerProject, baseProject, baseResources, List.filter] <;>
    norm_num

lemma stepMonth_of_empty (U : List InfrastructureUpgrade) (M : ℕ) (st : LoopState)
    (mo : ℕ) (st' : LoopState) (hcur : st.current_projects = [])
    (h : stepMonth U M st mo = Except.ok st') :
    st'.current_projects = [] ∧ st'.fp_monthly_profits = st.fp_monthly_profits ++ [0] := by
  rw [stepMonth, hcur] at h
  simp only [mapExcept, List.map_nil, List.sum_nil] at h
  cases hf : fundingPass [] st.catalog st.available_budget with
  | error e => rw [hf] at h; exact absurd h (by simp)
  | ok trip =>
    obtain ⟨cat1, b1, acts⟩ := trip
    rw [hf] at h
    simp only [sumWaterCosts] at h
    cases haff : U.filter (fun u =>
        decide (u ∉ st.planned_upgrades) && decide (u.cost ≤ 0 - 0 - 0 + b1)) with
    | nil =>
      rw [haff] at h
      cases h
      constructor
      · rfl
      · show st.fp_monthly_profits ++ [0 - 0 - 0] = st.fp_monthly_profits ++ [0]
        norm_num
    | cons u0 us =>
      rw [haff] at h
      dsimp only at h
      cases ha : applyImpacts st.resources (pyMaxFold (fun u =>
          calculate_infrastructure_roi st.resources u [] (M - mo)) u0 us).resource_impacts with
      | error e => rw [ha] at h; exact absurd h (by simp)
      | ok res1 =>
        rw [ha] at h
        cases h
        constructor
        · rfl
        · show st.fp_monthly_profits ++ [0 - 0 - 0] = st.fp_monthly_profits ++ [0]
          norm_num

lemma runMonths_empty (U : List InfrastructureUpgrade) (M : ℕ) :
    ∀ (l : List ℕ) (st st' : LoopState), st.current_projects = [] →
      (∀ x ∈ st.fp_monthly_profits, x = 0) →
      runMonths U M st l = Except.ok st' →
      st'.current_projects = [] ∧ ∀ x ∈ st'.fp_monthly_profits, x = 0 := by
  intro l
  induction l with
  | nil =>
    intro st st' h1 h2 h
    simp only [runMonths, Except.ok.injEq] at h
    exact h ▸ ⟨h1, h2⟩
  | cons mo rest ih =>
    intro st st' h1 h2 h
    simp only [runMonths] at h
    cases hs : stepMonth U M st mo with
    | error e => rw [hs] at h; exact absurd h (by simp)
    | ok st1 =>
      rw [hs] at h
      have hstep := stepMonth_of_empty U M st mo st1 h1 hs
      refine ih st1 st' hstep.1 ?_ h
      intro x hx
      rw [hstep.2] at hx
      rcases List.mem_append.mp hx with hx | hx
      · exact h2 x hx
      · simpa using hx

/-- Claim C1 (code bug): nothing in the loop ever appends a project to
`current_projects`, so in every completed run the active list is empty and
every period's profit (hence its revenue total) is 0 — a zero-startup
project with nonzero base revenue, multiplier, and sale probability never
contributes revenue in period 0; moreover with such a project in the
catalog the run does not even complete: it dies in the period-0 funding
pass with AttributeError. -/
theorem c1_zero_startup_earns_nothing :
    (∀ (res : Resources) (P : List Project) (U : List InfrastructureUpgrade) (M : ℕ),
      match optimize_with_infrastructure res P U M with
      | Except.ok (active, _, fp) => active = [] ∧ ∀ x ∈ fp.monthly_profits, x = 0
      | Except.error _ => True) ∧
    optimize_with_infrastructure baseResources [zeroStartupProject] [] 1 =
      Except.error "AttributeError: Project object has no attribute funded_so_far" ∧
    zeroStartupProject.startup_time_months = 0 ∧
    zeroStartupProject.monthly_revenue = 100 ∧
    zeroStartupProject.seasonal_multipliers.get Season.spring = 1 ∧
    zeroStartupProject.base_sales_probability = 0.5 := by
  refine ⟨?_, by rfl, by rfl, by rfl, by rfl, by rfl⟩
  intro res P U M
  cases hr : optimize_with_infrastructure res P U M with
  | error e => trivial
  | ok out =>
    obtain ⟨active, planned, fp⟩ := out
    rw [optimize_with_infrastructure] at hr
    cases hrm : runMonths U M (initState res P) (List.range M) with
    | error e => rw [hrm] at hr; exact absurd hr (by simp)
    | ok stf =>
      rw [hrm] at hr
      have hemp := runMonths_empty U M (List.range M) (initState res P) stf rfl
        (by intro x hx; simp [initState] at hx) hrm
      simp only [Except.ok.injEq, Prod.mk.injEq] at hr
      obtain ⟨h1, h2, h3⟩ := hr
      subst h1
      subst h3
      exact ⟨hemp.1, hemp.2⟩

/-- Witness for C1: the empty-catalog one-month run completes with an empty
active list and an all-zero profit series. -/
theorem c1_zero_startup_earns_nothing_witness :
    (match optimize_with_infrastructure baseResources [] [] 1 with
      | Except.ok (active, _, fp) => active = [] ∧ ∀ x ∈ fp.monthly_profits, x = 0
      | Except.error _ => True) :=
  c1_zero_startup_earns_nothing.1 baseResources [] [] 1

/-- Claim C2 (code bug): the funding pass reads the per-project
`funded_so_far` counter, an attribute the Project dataclass never defines,
so the very first funding attempt for any catalog project still in "setup"
raises AttributeError — the claimed persistent counter and the "growth"
transition are unreachable; the concrete one-project run dies in period 0. -/
theorem c2_funding_counter_never_initialized :
    (∀ (current : List Project) (budget : ℚ) (p : Project),
      p.current_stage = "setup" → p ∉ current →
      fundProject current budget ⟨p, none⟩ =
        Except.error "AttributeError: Project object has no attribute funded_so_far") ∧
    optimize_with_infrastructure baseResources [baseProject] [wellUpgrade] 1 =
      Except.error "AttributeError: Project object has no attribute funded_so_far" := by
  constructor
  · intro current budget p hstage hmem
    simp [fundProject, hstage, hmem]
  · rfl

/-- Witness for C2: the funding attempt for the fresh example project with
its counter attribute unset raises AttributeError. -/
theorem c2_funding_counter_never_initialized_witness :
    fundProject [] 0 ⟨baseProject, none⟩ =
      Except.error "AttributeError: Project object has no attribute funded_so_far" :=
  c2_funding_counter_never_initialized.1 [] 0 baseProject rfl (by simp)

lemma pyMaxFold_mem {α : Type} (key : α → ℚ) :
    ∀ (xs : List α) (x : α), pyMaxFold key x xs ∈ x :: xs := by
  intro xs
  induction xs with
  | nil => intro x; simp [pyMaxFold]
  | cons y ys ih =>
    intro x
    have h := ih (if key x < key y then y else x)
    simp only [pyMaxFold, List.foldl_cons]
    simp only [pyMaxFold] at h
    rcases List.mem_cons.mp h with h | h
    · rw [h]
      split_ifs
      · exact List.mem_cons_of_mem _ (List.mem_cons_self _ _)
      · exact List.mem_cons_self _ _
    · exact List.mem_cons_of_mem _ (List.mem_cons_of_mem _ h)

lemma stepMonth_planned (U : List InfrastructureUpgrade) (M : ℕ) (st : LoopState)
    (mo : ℕ) (st' : LoopState) (h : stepMonth U M st mo = Except.ok st') :
    st'.planned_upgrades = st.planned_upgrades ∨
      ∃ u, u ∉ st.planned_upgrades ∧
        st'.planned_upgrades = st.planned_upgrades ++ [u] := by
  rw [stepMonth] at h
  cases hm : mapExcept advanceProject st.current_projects with
  | error e => rw [hm] at h; exact absurd h (by simp)
  | ok cur1 =>
    rw [hm] at h
    dsimp only at h
    cases hf : fundingPass cur1 st.catalog st.available_budget with
    | error e => rw [hf] at h; exact absurd h (by simp)
    | ok trip =>
      obtain ⟨cat1, b1, acts⟩ := trip
      rw [hf] at h
      dsimp only at h
      cases hw : sumWaterCosts st.resources cur1 with
      | error e => rw [hw] at h; exact absurd h (by simp)
      | ok wc =>
        rw [hw] at h
        dsimp only at h
        set pool := (cur1.map (fun p =>
          calculate_market_adjusted_revenue st.resources p (Season.from_month mo))).sum -
          (cur1.map (fun p => p.monthly_cost)).sum - wc + b1 with hpool
        cases haff : U.filter (fun u =>
            decide (u ∉ st.planned_upgrades) && decide (u.cost ≤ pool)) with
        | nil =>
          rw [haff] at h
          cases h
          exact Or.inl rfl
        | cons u0 us =>
          rw [haff] at h
          dsimp only at h
          set best := pyMaxFold (fun u =>
            calculate_infrastructure_roi st.resources u cur1 (M - mo)) u0 us with hbest
          cases ha : applyImpacts st.resources best.resource_impacts with
          | error e => rw [ha] at h; exact absurd h (by simp)
          | ok res1 =>
            rw [ha] at h
            cases h
            refine Or.inr ⟨best, ?_, rfl⟩
            have hmem : best ∈ u0 :: us := hbest ▸ pyMaxFold_mem _ us u0
            rw [← haff] at hmem
            have := List.mem_filter.mp hmem
            have hpred := this.2
            simp only [Bool.and_eq_true, decide_eq_true_eq] at hpred
            exact hpred.1

lemma runMonths_planned (U : List InfrastructureUpgrade) (M : ℕ) :
    ∀ (l : List ℕ) (st st' : LoopState), runMonths U M st l = Except.ok st' →
      st.planned_upgrades <+: st'.planned_upgrades ∧
      st'.planned_upgrades.length ≤ st.planned_upgrades.length + l.length ∧
      (st.planned_upgrades.Nodup → st'.planned_upgrades.Nodup) := by
  intro l
  induction l with
  | nil =>
    intro st st' h
    simp only [runMonths, Except.ok.injEq] at h
    subst h
    exact ⟨List.prefix_rfl, by simp, fun hn => hn⟩
  | cons mo rest ih =>
    intro st st' h
    simp only [runMonths] at h
    cases hs : stepMonth U M st mo with
    | error e => rw [hs] at h; exact absurd h (by simp)
    | ok st1 =>
      rw [hs] at h
      have hrest := ih st1 st' h
      rcases stepMonth_planned U M st mo st1 hs with hp | ⟨u, hu, hp⟩
      · refine ⟨hp ▸ hrest.1, ?_, fun hn => hrest.2.2 (hp ▸ hn)⟩
        have := hrest.2.1
        rw [hp] at this
        simp only [List.length_cons] at this ⊢
        omega
      · refine ⟨?_, ?_, ?_⟩
        · exact List.IsPrefix.trans (hp ▸ List.prefix_append _ _) hrest.1
        · have := hrest.2.1
          rw [hp] at this
          simp only [List.length_append, List.length_cons, List.length_nil] at this ⊢
          omega
        · intro hn
          refine hrest.2.2 ?_
          rw [hp]
          simp [List.nodup_append, hn, hu]

/-- Claim C8: in every run at most one upgrade is applied per period (each
step leaves the applied list unchanged or appends exactly one upgrade not
already in it), the list grows append-only (the old list is a prefix of the
new one, with length growing by at most the number of periods), every
completed run has a duplicate-free applied list of length at most
projection_months, and the concrete two-month run applies the cheap upgrade
exactly once. -/
theorem c8_at_most_one_upgrade_per_period :
    (∀ (U : List InfrastructureUpgrade) (M : ℕ) (st : LoopState) (mo : ℕ),
      match stepMonth U M st mo with
      | Except.ok st' => st'.planned_upgrades = st.planned_upgrades ∨
          ∃ u, u ∉ st.planned_upgrades ∧
            st'.planned_upgrades = st.planned_upgrades ++ [u]
      | Except.error _ => True) ∧
    (∀ (U : List InfrastructureUpgrade) (M : ℕ) (l : List ℕ) (st : LoopState),
      match runMonths U M st l with
      | Except.ok st' => st.planned_upgrades <+: st'.planned_upgrades ∧
          st'.planned_upgrades.length ≤ st.planned_upgrades.length + l.length
      | Except.error _ => True) ∧
    (∀ (res : Resources) (P : List Project) (U : List InfrastructureUpgrade) (M : ℕ),
      match optimize_with_infrastructure res P U M with
      | Except.ok (_, planned, _) => planned.Nodup ∧ planned.length ≤ M
      | Except.error _ => True) ∧
    Except.map (fun out => out.2.1)
      (optimize_with_infrastructure baseResources [] [cheapUpgrade] 2) =
      Except.ok [cheapUpgrade] := by
  refine ⟨?_, ?_, ?_, ?_⟩
  · intro U M st mo
    cases hs : stepMonth U M st mo with
    | error e => trivial
    | ok st' => exact stepMonth_planned U M st mo st' hs
  · intro U M l st
    cases hr : runMonths U M st l with
    | error e => trivial
    | ok st' =>
      have h := runMonths_planned U M l st st' hr
      exact ⟨h.1, h.2.1⟩
  · intro res P U M
    cases hr : optimize_with_infrastructure res P U M with
    | error e => trivial
    | ok out =>
      obtain ⟨active, planned, fp⟩ := out
      rw [optimize_with_infrastructure] at hr
      cases hrm : runMonths U M (initState res P) (List.range M) with
      | error e => rw [hrm] at hr; exact absurd hr (by simp)
      | ok stf =>
        rw [hrm] at hr
        have h := runMonths_planned U M (List.range M) (initState res P) stf hrm
        simp only [Except.ok.injEq, Prod.mk.injEq] at hr
        obtain ⟨h1, h2, h3⟩ := hr
        subst h2
        constructor
        · exact h.2.2 (by simp [initState])
        · have := h.2.1
          simpa [initState] using this
  · simp only [optimize_with_infrastructure, runMonths, stepMonth, initState, mapExcept,
      fundingPass, sumWaterCosts, finishMonth, pyMaxFold, Season.from_month,
      baseResources, cheapUpgrade, List.range, List.range.loop, Except.map, List.map]
    norm_num [List.filter, applyImpacts, applyImpact_climate, allSeasonsOne, mapExcept,
      fundingPass, sumWaterCosts, finishMonth, pyMaxFold, Season.from_month]

/-- Witness for C8: the concrete two-month run succeeds, applying exactly
one upgrade with no duplicates. -/
theorem c8_at_most_one_upgrade_per_period_witness :
    (match optimize_with_infrastructure baseResources [] [cheapUpgrade] 2 with
      | Except.ok (_, planned, _) => planned.Nodup ∧ planned.length ≤ 2
      | Except.error _ => True) :=
  c8_at_most_one_upgrade_per_period.2.2.1 baseResources [] [cheapUpgrade] 2

lemma scrubState_current (st : LoopState) :
    (scrubState st).current_projects = st.current_projects := rfl

lemma scrubState_catalog (st : LoopState) :
    (scrubState st).catalog = st.catalog := rfl

lemma scrubState_budget (st : LoopState) :
    (scrubState st).available_budget = st.available_budget := rfl

lemma scrubState_planned (st : LoopState) :
    (scrubState st).planned_upgrades = st.planned_upgrades := rfl

lemma scrubState_resources (st : LoopState) :
    (scrubState st).resources = scrub st.resources := rfl

lemma cmar_scrub (r : Resources) (p : Project) (s : Season) :
    calculate_market_adjusted_revenue (scrub r) p s =
      calculate_market_adjusted_revenue r p s := rfl

lemma cwc_scrub (r : Resources) (g : ℚ) :
    calculate_water_costs (scrub r) g = calculate_water_costs r g := rfl

lemma roi_scrub (r : Resources) (u : InfrastructureUpgrade) (ps : List Project) (m : ℕ) :
    calculate_infrastructure_roi (scrub r) u ps m =
      calculate_infrastructure_roi r u ps m := rfl

lemma swc_scrub (r : Resources) : ∀ l : List Project,
    sumWaterCosts (scrub r) l = sumWaterCosts r l := by
  intro l
  induction l with
  | nil => rfl
  | cons p rest ih => simp only [sumWaterCosts, cwc_scrub, ih]

lemma applyImpact_scrub (r : Resources) (f : String) (v : ℚ) :
    (applyImpact (scrub r) f v).map scrub = (applyImpact r f v).map scrub := by
  by_cases h1 : f = "solar_power_kw"
  · subst h1; rfl
  by_cases h2 : f = "battery_capacity_kwh"
  · subst h2; rfl
  by_cases h3 : f = "daytime_power_available_kwh"
  · subst h3; rfl
  by_cases h4 : f = "water_distance_miles"
  · subst h4; rfl
  by_cases h5 : f = "truck_mpg"
  · subst h5; rfl
  by_cases h6 : f = "initial_soil"
  · subst h6; rfl
  by_cases h7 : f = "available_money_monthly"
  · subst h7; rfl
  by_cases h8 : f = "investment_period_months"
  · subst h8; rfl
  by_cases h9 : f = "work_hours_daily"
  · subst h9; rfl
  by_cases h10 : f = "outdoor_space_acres"
  · subst h10; rfl
  by_cases h11 : f = "indoor_space_sqft"
  · subst h11; rfl
  by_cases h12 : f = "has_automation_skills"
  · subst h12; rfl
  by_cases h13 : f = "climate_controlled_sqft"
  · subst h13; rfl
  by_cases h14 : f = "market_connections"
  · subst h14; rfl
  by_cases h15 : f = "reinvestment_rate"
  · subst h15; rfl
  by_cases h16 : f = "target_savings"
  · subst h16; rfl
  simp only [applyImpact, if_neg h1, if_neg h2, if_neg h3, if_neg h4, if_neg h5, if_neg h6, if_neg h7, if_neg h8, if_neg h9, if_neg h10, if_neg h11, if_neg h12, if_neg h13, if_neg h14, if_neg h15, if_neg h16]
  rfl

lemma applyImpacts_scrub : ∀ (l : List (String × ℚ)) (r : Resources),
    (applyImpacts (scrub r) l).map scrub = (applyImpacts r l).map scrub := by
  intro l
  induction l with
  | nil => intro r; rfl
  | cons hd tl ih =>
    intro r
    obtain ⟨f, v⟩ := hd
    simp only [applyImpacts]
    have h := applyImpact_scrub r f v
    cases h1 : applyImpact (scrub r) f v with
    | error e1 =>
      cases h2 : applyImpact r f v with
      | error e2 =>
        rw [h1, h2] at h
        simp only [Except.map, Except.error.injEq] at h
        rw [h]
      | ok r2 => rw [h1, h2] at h; simp [Except.map] at h
    | ok r1 =>
      cases h2 : applyImpact r f v with
      | error e2 => rw [h1, h2] at h; simp [Except.map] at h
      | ok r2 =>
        rw [h1, h2] at h
        simp only [Except.map, Except.ok.injEq] at h
        calc (applyImpacts r1 tl).map scrub
            = (applyImpacts (scrub r1) tl).map scrub := (ih r1).symm
          _ = (applyImpacts (scrub r2) tl).map scrub := by rw [h]
          _ = (applyImpacts r2 tl).map scrub := ih r2

lemma finishMonth_scrub_self (st : LoopState) (mo : ℕ) (cat1 : List ProjState)
    (cur1 : List Project) (pl : List InfrastructureUpgrade) (r : Resources)
    (profit pool : ℚ) (acts : List String) :
    scrubState (finishMonth (scrubState st) mo cat1 cur1 pl r profit pool acts) =
      scrubState (finishMonth st mo cat1 cur1 pl r profit pool acts) := rfl

lemma finishMonth_scrub_congr (st : LoopState) (mo : ℕ) (cat1 : List ProjState)
    (cur1 : List Project) (pl : List InfrastructureUpgrade) (r1 r2 : Resources)
    (profit pool : ℚ) (acts : List String) (h : scrub r1 = scrub r2) :
    scrubState (finishMonth st mo cat1 cur1 pl r1 profit pool acts) =
      scrubState (finishMonth st mo cat1 cur1 pl r2 profit pool acts) := by
  have hrr : r1.reinvestment_rate = r2.reinvestment_rate := by
    have h2 := congrArg Resources.reinvestment_rate h
    exact h2
  simp only [finishMonth, scrubState]
  rw [hrr, h]

lemma stepMonth_scrub (U : List InfrastructureUpgrade) (M : ℕ) (st : LoopState) (mo : ℕ) :
    (stepMonth U M (scrubState st) mo).map scrubState =
      (stepMonth U M st mo).map scrubState := by
  simp only [stepMonth, scrubState_current, scrubState_catalog, scrubState_budget,
    scrubState_planned, scrubState_resources, cmar_scrub, swc_scrub, roi_scrub]
  cases hm : mapExcept advanceProject st.current_projects with
  | error e => rfl
  | ok cur1 =>
    dsimp only
    cases hf : fundingPass cur1 st.catalog st.available_budget with
    | error e => rfl
    | ok trip =>
      obtain ⟨cat1, b1, acts⟩ := trip
      dsimp only
      cases hw : sumWaterCosts st.resources cur1 with
      | error e => rfl
      | ok wc =>
        dsimp only
        set pool := (cur1.map (fun p =>
          calculate_market_adjusted_revenue st.resources p (Season.from_month mo))).sum -
          (cur1.map (fun p => p.monthly_cost)).sum - wc + b1 with hpool
        cases haff : U.filter (fun u =>
            decide (u ∉ st.planned_upgrades) && decide (u.cost ≤ pool)) with
        | nil =>
          dsimp only
          exact congrArg Except.ok
            (finishMonth_scrub_self st mo cat1 cur1 st.planned_upgrades st.resources _ _ acts)
        | cons u0 us =>
          dsimp only
          set best := pyMaxFold (fun u =>
            calculate_infrastructure_roi st.resources u cur1 (M - mo)) u0 us with hbest
          have hai := applyImpacts_scrub best.resource_impacts st.resources
          cases h1 : applyImpacts (scrub st.resources) best.resource_impacts with
          | error e1 =>
            cases h2 : applyImpacts st.resources best.resource_impacts with
            | error e2 =>
              rw [h1, h2] at hai
              simp only [Except.map, Except.error.injEq] at hai
              rw [hai]
            | ok r2 => rw [h1, h2] at hai; simp [Except.map] at hai
          | ok r1 =>
            cases h2 : applyImpacts st.resources best.resource_impacts with
            | error e2 => rw [h1, h2] at hai; simp [Except.map] at hai
            | ok r2 =>
              rw [h1, h2] at hai
              simp only [Except.map, Except.ok.injEq] at hai
              exact congrArg Except.ok
                (Eq.trans
                  (finishMonth_scrub_self st mo cat1 cur1 (st.planned_upgrades ++ [best]) r1 _ _ _)
                  (finishMonth_scrub_congr st mo cat1 cur1 (st.planned_upgrades ++ [best]) r1 r2 _ _ _ hai))

lemma stepMonth_scrub_pair (U : List InfrastructureUpgrade) (M : ℕ) (st1 st2 : LoopState)
    (mo : ℕ) (h : scrubState st1 = scrubState st2) :
    (stepMonth U M st1 mo).map scrubState = (stepMonth U M st2 mo).map scrubState := by
  calc (stepMonth U M st1 mo).map scrubState
      = (stepMonth U M (scrubState st1) mo).map scrubState := (stepMonth_scrub U M st1 mo).symm
    _ = (stepMonth U M (scrubState st2) mo).map scrubState := by rw [h]
    _ = (stepMonth U M st2 mo).map scrubState := stepMonth_scrub U M st2 mo

lemma runMonths_scrub (U : List InfrastructureUpgrade) (M : ℕ) :
    ∀ (l : List ℕ) (st1 st2 : LoopState), scrubState st1 = scrubState st2 →
      (runMonths U M st1 l).map scrubState = (runMonths U M st2 l).map scrubState := by
  intro l
  induction l with
  | nil =>
    intro st1 st2 h
    simp only [runMonths, Except.map, h]
  | cons mo rest ih =>
    intro st1 st2 h
    simp only [runMonths]
    have hs := stepMonth_scrub_pair U M st1 st2 mo h
    cases h1 : stepMonth U M st1 mo with
    | error e1 =>
      cases h2 : stepMonth U M st2 mo with
      | error e2 =>
        rw [h1, h2] at hs
        simp only [Except.map, Except.error.injEq] at hs
        rw [hs]
      | ok s2 => rw [h1, h2] at hs; simp [Except.map] at hs
    | ok s1 =>
      cases h2 : stepMonth U M st2 mo with
      | error e2 => rw [h1, h2] at hs; simp [Except.map] at hs
      | ok s2 =>
        rw [h1, h2] at hs
        simp only [Except.map, Except.ok.injEq] at hs
        exact ih s1 s2 hs

/-- Claim C10: two Resources snapshots differing only in
battery_capacity_kwh and daytime_power_available_kwh produce literally the
same optimizer result — active projects, applied upgrades, and the whole
financial trace (and the same error when the run fails) — for any injected
catalog and horizon: the loop never consults `check_power_feasibility` and
nothing it computes reads those two fields. -/
theorem c10_power_budget_no_influence :
    ∀ (r : Resources) (b1 d1 b2 d2 : ℚ) (P : List Project)
      (U : List InfrastructureUpgrade) (M : ℕ),
      optimize_with_infrastructure
          { r with battery_capacity_kwh := b1, daytime_power_available_kwh := d1 } P U M =
        optimize_with_infrastructure
          { r with battery_capacity_kwh := b2, daytime_power_available_kwh := d2 } P U M := by
  intro r b1 d1 b2 d2 P U M
  have hinit : scrubState (initState
      { r with battery_capacity_kwh := b1, daytime_power_available_kwh := d1 } P) =
      scrubState (initState
      { r with battery_capacity_kwh := b2, daytime_power_available_kwh := d2 } P) := rfl
  have hrun := runMonths_scrub U M (List.range M) _ _ hinit
  rw [optimize_with_infrastructure, optimize_with_infrastructure]
  cases h1 : runMonths U M (initState
      { r with battery_capacity_kwh := b1, daytime_power_available_kwh := d1 } P)
      (List.range M) with
  | error e1 =>
    cases h2 : runMonths U M (initState
        { r with battery_capacity_kwh := b2, daytime_power_available_kwh := d2 } P)
        (List.range M) with
    | error e2 =>
      rw [h1, h2] at hrun
      simp only [Except.map, Except.error.injEq] at hrun
      rw [hrun]
    | ok s2 => rw [h1, h2] at hrun; simp [Except.map] at hrun
  | ok s1 =>
    cases h2 : runMonths U M (initState
        { r with battery_capacity_kwh := b2, daytime_power_available_kwh := d2 } P)
        (List.range M) with
    | error e2 => rw [h1, h2] at hrun; simp [Except.map] at hrun
    | ok s2 =>
      rw [h1, h2] at hrun
      simp only [Except.map, Except.ok.injEq] at hrun
      have hc : s1.current_projects = s2.current_projects := by
        have h := congrArg LoopState.current_projects hrun
        exact h
      have hp : s1.planned_upgrades = s2.planned_upgrades := by
        have h := congrArg LoopState.planned_upgrades hrun
        exact h
      have hd1 : s1.fp_monthly_details = s2.fp_monthly_details := by
        have h := congrArg LoopState.fp_monthly_details hrun
        exact h
      have hd2 : s1.fp_monthly_profits = s2.fp_monthly_profits := by
        have h := congrArg LoopState.fp_monthly_profits hrun
        exact h
      have hd3 : s1.fp_accumulated_savings = s2.fp_accumulated_savings := by
        have h := congrArg LoopState.fp_accumulated_savings hrun
        exact h
      have hd4 : s1.fp_infrastructure_investments = s2.fp_infrastructure_investments := by
        have h := congrArg LoopState.fp_infrastructure_investments hrun
        exact h
      have hd5 : s1.fp_well_savings = s2.fp_well_savings := by
        have h := congrArg LoopState.fp_well_savings hrun
        exact h
      dsimp only
      rw [hc, hp, hd1, hd2, hd3, hd4, hd5]

end FarmOpt
